import Mathlib

/-
Verification development for the advancedlogger repository (src/logger.py).

The Python source is shallowly embedded below: pure formatting code becomes
Lean functions on an explicit record model, the mutable AdvancedLogger object
becomes a state structure with explicit state-passing operations, and the
decorator wrappers become functions from a fallible callable to a result
together with the list of log entries they emit and the list of invocations
of the wrapped callable.

External collaborators (the standard logging backend) are modelled only as
far as the source relies on them: the class hierarchy fact that FileHandler
is a subclass of StreamHandler (which the isinstance dispatch in
reset_formatters depends on), per-record timestamp rendering (carried as
data on the record), and traceback capture (carried as an optional string).
-/

/-! ### Level naming and colors (logger.py lines 12-31) -/

/-- LOG_LEVELS dictionary: severity number to short code. -/
def LOG_LEVELS : List (Nat × String) :=
  [(10, "DBG"), (20, "INF"), (30, "WRN"), (40, "ERR"), (50, "CRT")]

/-- ANSI reset escape, COLORS["RESET"]. -/
def RESET : String := "\x1b[0m"

/-- COLORS dictionary: short code to ANSI escape. -/
def COLORS : List (String × String) :=
  [("DBG", "\x1b[90m"), ("INF", "\x1b[92m"), ("WRN", "\x1b[93m"),
   ("ERR", "\x1b[91m"), ("CRT", "\x1b[91m"), ("RESET", RESET)]

/-- MAX_FIELD_WIDTH constant (line 31). -/
def MAX_FIELD_WIDTH : Nat := 20

/-- LOG_LEVELS.get(record.levelno, "UNK") (lines 64 and 106). -/
def levelCode (levelno : Nat) : String := (LOG_LEVELS.lookup levelno).getD "UNK"

/-- COLORS.get(level, COLORS["RESET"]) (line 65). -/
def colorOf (level : String) : String := (COLORS.lookup level).getD RESET

/-! ### Log record model

A record carries the data the formatters read: severity number, source
location, the already-interpolated message, the rendered default timestamp,
a function rendering the timestamp under a custom pattern (formatTime is
provided by the external logging backend), and the optional captured
exception trace (record.exc_info together with traceback.format_exc()). -/

structure LogRecord where
  levelno : Nat
  module : String
  funcName : String
  message : String
  asctime : String
  asctimeFmt : String → String
  excInfo : Option String

/-! ### Python string helpers used by the formatters -/

/-- Python str.ljust(w): pad on the right with spaces up to width w. -/
def pyLjust (s : String) (w : Nat) : String :=
  String.mk (s.data ++ List.replicate (w - s.data.length) ' ')

/-- Python slice s[:w] for a nonnegative bound. -/
def pySliceTo (s : String) (w : Nat) : String := String.mk (s.data.take w)

/-- Caller field: "|{module}.{function}".ljust(max_width)[:max_width] when
put_func_name is set, else the empty string (lines 70-73 and 111-114). -/
def moduleFunctionField (put_func_name : Bool) (max_width : Nat)
    (module funcName : String) : String :=
  if put_func_name then
    pySliceTo (pyLjust ("|" ++ module ++ "." ++ funcName) max_width) max_width
  else ""

/-- Timestamp dispatch (lines 66-69 and 107-110): use the custom pattern when
time_format is set and non-empty, else the default rendering. -/
def formatTimeOf (time_format : Option String) (r : LogRecord) : String :=
  match time_format with
  | some f => if 0 < f.length then r.asctimeFmt f else r.asctime
  | none => r.asctime

/-- Custom tag field "|{custom_str}" when non-empty (lines 84 and 115). -/
def tagField (custom_str : String) : String :=
  if 0 < custom_str.length then "|" ++ custom_str else ""

/-- Trace appending as written in the source (lines 87-88 and 117-118):
under severity at least ERROR, append the trace when exc_info is set. -/
def codeTraceAppend (levelno : Nat) (excInfo : Option String) (s : String) : String :=
  if 40 ≤ levelno then
    s ++ (match excInfo with | some tb => "\n" ++ tb | none => "")
  else s

/-! ### ConsoleFormatter (lines 46-92) -/

structure ConsoleFormatter where
  custom_str : String
  max_width : Nat
  put_func_name : Bool
  time_format : Option String
  colored_level : Bool
  colored_log : Bool
deriving DecidableEq

/-- ConsoleFormatter.__init__ (lines 49-61), including the sequential
normalization: colored_log forces colored_level on, and a cleared
colored_level then forces colored_log off. -/
def mkConsoleFormatter (put_func_name : Bool) (max_width : Nat) (custom_str : String)
    (time_format : Option String) (colored_level colored_log : Bool) : ConsoleFormatter :=
  let colored_level := if colored_log then true else colored_level
  let colored_log := if ¬ colored_level then false else colored_log
  { custom_str, max_width, put_func_name, time_format, colored_level, colored_log }

/-- Level token rendering for the console variant (lines 76-82). -/
def consoleLevelStr (cf : ConsoleFormatter) (level : String) : String :=
  if cf.colored_level then
    if cf.colored_log ∧ level ≠ "INF" then level
    else colorOf level ++ level ++ RESET
  else level

/-- Whole-line wrap for the console variant (lines 89-90). -/
def consoleFinalWrap (cf : ConsoleFormatter) (level : String) (s : String) : String :=
  if cf.colored_log ∧ level ≠ "INF" then colorOf level ++ s ++ RESET else s

/-- ConsoleFormatter.format (lines 63-92). -/
def ConsoleFormatter.format (cf : ConsoleFormatter) (r : LogRecord) : String :=
  let level := levelCode r.levelno
  let log_msg := "[" ++ formatTimeOf cf.time_format r
      ++ moduleFunctionField cf.put_func_name cf.max_width r.module r.funcName
      ++ tagField cf.custom_str ++ "|" ++ consoleLevelStr cf level ++ "] " ++ r.message
  let log_msg := codeTraceAppend r.levelno r.excInfo log_msg
  consoleFinalWrap cf level log_msg

/-! ### FileFormatter (lines 95-120) -/

structure FileFormatter where
  max_width : Nat
  custom_str : String
  put_func_name : Bool
  time_format : Option String
deriving DecidableEq

/-- FileFormatter.__init__ (lines 98-103): plain field storage, no coloring
fields and no normalization. -/
def mkFileFormatter (put_func_name : Bool) (max_width : Nat) (custom_str : String)
    (time_format : Option String) : FileFormatter :=
  { max_width, custom_str, put_func_name, time_format }

/-- FileFormatter.format (lines 105-120): identical layout, never colors. -/
def FileFormatter.format (ff : FileFormatter) (r : LogRecord) : String :=
  let level := levelCode r.levelno
  let log_msg := "[" ++ formatTimeOf ff.time_format r
      ++ moduleFunctionField ff.put_func_name ff.max_width r.module r.funcName
      ++ tagField ff.custom_str ++ "|" ++ level ++ "] " ++ r.message
  codeTraceAppend r.levelno r.excInfo log_msg

/-! ### Handlers and the AdvancedLogger state (lines 233-418)

The logging backend's handler objects are modelled as records carrying their
runtime class, their current formatter, and - for file handlers - the open
path, the open mode and the lines written through them since they were
attached.  The class field records the Python fact that this program only
ever creates StreamHandler and FileHandler instances, and that FileHandler
is a subclass of StreamHandler, which is what the isinstance tests observe. -/

inductive Formatter where
  | console : ConsoleFormatter → Formatter
  | file : FileFormatter → Formatter
deriving DecidableEq

/-- Dispatch of formatting to the handler's current formatter instance. -/
def Formatter.format : Formatter → LogRecord → String
  | .console cf, r => cf.format r
  | .file ff, r => ff.format r

inductive HandlerClass where
  | streamHandler : HandlerClass
  | fileHandler : HandlerClass
deriving DecidableEq

structure Handler where
  cls : HandlerClass
  formatter : Formatter
  path : Option String
  mode : Option String
  written : List String
deriving DecidableEq

/-- isinstance(h, logging.StreamHandler): true for both classes because
FileHandler subclasses StreamHandler in the logging backend. -/
def isStreamHandlerInstance (h : Handler) : Bool :=
  match h.cls with
  | .streamHandler => true
  | .fileHandler => true

/-- isinstance(h, logging.FileHandler). -/
def isFileHandlerInstance (h : Handler) : Bool := h.cls == HandlerClass.fileHandler

/-- posixpath.dirname, as used for self.log_dir (lines 307 and 378). -/
def posixDirname (p : String) : String :=
  let l := p.data
  let i := l.length - (l.reverse.takeWhile (fun c => c ≠ '/')).length
  let head := l.take i
  if head ≠ [] ∧ head.any (fun c => c ≠ '/') then
    String.mk ((head.reverse.dropWhile (fun c => c = '/')).reverse)
  else String.mk head

structure AdvancedLogger where
  name : String
  log_file : Option String
  log_dir : Option String
  max_width : Nat
  custom_str : String
  put_func_name : Bool
  time_format : Option String
  colored_level : Bool
  colored_log : Bool
  handlers : List Handler
deriving DecidableEq

/-- AdvancedLogger.__init__ (lines 241-332): store the configuration fields,
attach a console StreamHandler with a ConsoleFormatter, and, when a log_file
is given, attach a FileHandler in append mode with a FileFormatter. -/
def AdvancedLogger.make (name : String) (log_file : Option String)
    (put_func_name : Bool) (max_width : Nat) (custom_str : String)
    (time_format : Option String) (colored_level colored_log : Bool) : AdvancedLogger :=
  let console : Handler :=
    { cls := .streamHandler
      formatter := .console (mkConsoleFormatter put_func_name max_width custom_str
        time_format colored_level colored_log)
      path := none, mode := none, written := [] }
  let handlers :=
    match log_file with
    | some p =>
        [console,
         { cls := .fileHandler
           formatter := .file (mkFileFormatter put_func_name max_width custom_str time_format)
           path := some p, mode := some "a", written := [] }]
    | none => [console]
  { name, log_file, log_dir := log_file.map posixDirname,
    max_width, custom_str, put_func_name, time_format,
    colored_level, colored_log, handlers }

/-- AdvancedLogger.reset_formatters (lines 334-347), translated with the
source's dispatch order: the StreamHandler isinstance test is made first, so
it also captures FileHandler instances and the FileFormatter branch below it
is unreachable, exactly as in the Python. -/
def AdvancedLogger.reset_formatters (lg : AdvancedLogger) : AdvancedLogger :=
  { lg with handlers := lg.handlers.map fun h =>
      if isStreamHandlerInstance h then
        { h with formatter := .console (mkConsoleFormatter lg.put_func_name lg.max_width
            lg.custom_str lg.time_format lg.colored_level lg.colored_log) }
      else if isFileHandlerInstance h then
        { h with formatter := .file (mkFileFormatter lg.put_func_name lg.max_width
            lg.custom_str lg.time_format) }
      else h }

/-- AdvancedLogger.reset_defaults (lines 349-359). -/
def AdvancedLogger.reset_defaults (lg : AdvancedLogger) : AdvancedLogger :=
  ({ lg with put_func_name := true, max_width := MAX_FIELD_WIDTH, custom_str := "",
             time_format := none, colored_level := true, colored_log := false
     } : AdvancedLogger).reset_formatters

/-- AdvancedLogger.set_file (lines 362-378): remove every FileHandler, attach
a fresh FileHandler at the given path in append mode with a FileFormatter
built from the current configuration, and update log_file and log_dir. -/
def AdvancedLogger.set_file (lg : AdvancedLogger) (log_file : String) : AdvancedLogger :=
  let kept := lg.handlers.filter fun h => ! isFileHandlerInstance h
  let fh : Handler :=
    { cls := .fileHandler
      formatter := .file (mkFileFormatter lg.put_func_name lg.max_width lg.custom_str
        lg.time_format)
      path := some log_file, mode := some "a", written := [] }
  { lg with handlers := kept ++ [fh], log_file := some log_file,
            log_dir := some (posixDirname log_file) }

/-- AdvancedLogger.set_custom_str (lines 381-386). -/
def AdvancedLogger.set_custom_str (lg : AdvancedLogger) (custom_str : String) : AdvancedLogger :=
  ({ lg with custom_str } : AdvancedLogger).reset_formatters

/-- AdvancedLogger.set_put_func_name (lines 389-394). -/
def AdvancedLogger.set_put_func_name (lg : AdvancedLogger) (put_func_name : Bool) : AdvancedLogger :=
  ({ lg with put_func_name } : AdvancedLogger).reset_formatters

/-- AdvancedLogger.set_max_width (lines 397-402). -/
def AdvancedLogger.set_max_width (lg : AdvancedLogger) (max_width : Nat) : AdvancedLogger :=
  ({ lg with max_width } : AdvancedLogger).reset_formatters

/-- AdvancedLogger.set_time_format (lines 405-410). -/
def AdvancedLogger.set_time_format (lg : AdvancedLogger) (time_format : Option String) : AdvancedLogger :=
  ({ lg with time_format } : AdvancedLogger).reset_formatters

/-- AdvancedLogger.set_coloring (lines 412-418): stores both arguments raw
and rebuilds the formatters; the coupling normalization happens inside the
ConsoleFormatter constructor during the rebuild. -/
def AdvancedLogger.set_coloring (lg : AdvancedLogger) (colored_level colored_log : Bool) : AdvancedLogger :=
  ({ lg with colored_level, colored_log } : AdvancedLogger).reset_formatters

/-- Dispatch of one record to every attached handler.  The logger and each
handler created by this program are pinned at level DEBUG = 10, so a record
is emitted exactly when its severity is at least 10. -/
def AdvancedLogger.handle (lg : AdvancedLogger) (r : LogRecord) : AdvancedLogger :=
  if 10 ≤ r.levelno then
    { lg with handlers := lg.handlers.map fun h =>
        { h with written := h.written ++ [h.formatter.format r] } }
  else lg

/-- Dispatch of a sequence of records in order. -/
def AdvancedLogger.logMany (lg : AdvancedLogger) (rs : List LogRecord) : AdvancedLogger :=
  rs.foldl AdvancedLogger.handle lg

/-! ### Observation helpers on the logger state -/

/-- Effective coloring configuration: the (colored_level, colored_log) pair
of every console formatter currently installed on a handler. -/
def effectiveColorings (lg : AdvancedLogger) : List (Bool × Bool) :=
  lg.handlers.filterMap fun h =>
    match h.formatter with
    | .console cf => some (cf.colored_level, cf.colored_log)
    | .file _ => none

/-- Formatters currently installed on the file handlers. -/
def fileHandlerFormatters (lg : AdvancedLogger) : List Formatter :=
  (lg.handlers.filter fun h => isFileHandlerInstance h).map fun h => h.formatter

/-- Render one record through every file handler's current formatter. -/
def fileRenders (lg : AdvancedLogger) (r : LogRecord) : List String :=
  (fileHandlerFormatters lg).map fun f => f.format r

/-- Path, mode and written lines of the attached file handlers. -/
def fileSinkStates (lg : AdvancedLogger) : List (Option String × Option String × List String) :=
  (lg.handlers.filter fun h => isFileHandlerInstance h).map fun h => (h.path, h.mode, h.written)

/-! ### Decorator wrappers (lines 154-188, 439-462, 468-506)

A wrapped callable is modelled as a function into Except: a normal return is
ok, a raised exception is error carrying the exception value, so verbatim
re-raising is equality of the carried value.  Each wrapper returns the
call's outcome, the list of log entries it emitted in order, and the list of
invocations it made of the wrapped callable.  Wall-clock timing is external;
the elapsed-seconds text of the verbose finish message is taken as an
argument. -/

structure LogEntry where
  level : Nat
  msg : String
  exc_info : Bool
deriving DecidableEq

/-- Python repr of a simple function name, the {!r} rendering. -/
def pyRepr (s : String) : String := "'" ++ s ++ "'"

/-- Verbose INFO entry logged before calling the wrapped function. -/
def lfCallingEntry (name : String) : LogEntry :=
  ⟨20, "Calling " ++ name ++ " ...", false⟩

/-- Verbose INFO entry logged after a successful call. -/
def lfFinishedEntry (name elapsed : String) : LogEntry :=
  ⟨20, "Finished " ++ name ++ " in " ++ elapsed ++ " seconds.", false⟩

/-- ERROR entry logged when the wrapped function raises, carrying the
captured trace (exc_info=True). -/
def lfErrorEntry (name e : String) : LogEntry :=
  ⟨40, "Error in " ++ name ++ ": " ++ e, true⟩

/-- WARNING entry logged when the raised error is being suppressed. -/
def lfSkipEntry (name : String) : LogEntry :=
  ⟨30, "Skipping " ++ name ++ " due to error.", false⟩

/-- Wrapper produced by the module-level log_funcall decorator
(lines 170-188). -/
def log_funcall_wrap {α β : Type} (default : β) (skip verbose : Bool)
    (name elapsed : String) (f : α → Except String β) (x : α) :
    Except String β × List LogEntry × List α :=
  let calling : List LogEntry := if verbose then [lfCallingEntry name] else []
  match f x with
  | .ok result =>
      (.ok result,
       calling ++ (if verbose then [lfFinishedEntry name elapsed] else []),
       [x])
  | .error e =>
      if skip then
        (.ok default, calling ++ [lfErrorEntry name e] ++ [lfSkipEntry name], [x])
      else
        (.error e, calling ++ [lfErrorEntry name e], [x])

/-- Wrapper produced by AdvancedLogger.log_funcall (lines 439-462): the same
control flow, with the function name rendered through {!r}. -/
def AdvancedLogger.log_funcall_wrap {α β : Type} (default : β) (skip verbose : Bool)
    (name elapsed : String) (f : α → Except String β) (x : α) :
    Except String β × List LogEntry × List α :=
  let calling : List LogEntry := if verbose then [lfCallingEntry (pyRepr name)] else []
  match f x with
  | .ok result =>
      (.ok result,
       calling ++ (if verbose then [lfFinishedEntry (pyRepr name) elapsed] else []),
       [x])
  | .error e =>
      if skip then
        (.ok default,
         calling ++ [lfErrorEntry (pyRepr name) e] ++ [lfSkipEntry (pyRepr name)], [x])
      else
        (.error e, calling ++ [lfErrorEntry (pyRepr name) e], [x])

/-! ### MethodLogger (lines 468-506)

Loggers are identified by an abstract reference (a natural number); the
receiving object's attribute table is modelled as the getattr function, and
every emitted entry is tagged with the logger it was sent to. -/

structure MethodLogger (β : Type) where
  _logger : Option Nat
  default : β
  skip : Bool
  verbose : Bool
  loggerVarName : String

/-- Verbose INFO entry of MethodLogger before the call (percent style). -/
def mlCallingEntry (name : String) : LogEntry := ⟨20, "Calling " ++ name, false⟩

/-- Verbose INFO entry of MethodLogger after a successful call. -/
def mlFinishedEntry (name elapsed : String) : LogEntry :=
  ⟨20, "Finished " ++ name ++ " in " ++ elapsed ++ " seconds", false⟩

/-- ERROR entry of MethodLogger, carrying the captured trace. -/
def mlErrorEntry (name e : String) : LogEntry :=
  ⟨40, "Error in " ++ name ++ ": " ++ e, true⟩

/-- WARNING entry of MethodLogger when suppressing. -/
def mlSkipEntry (name : String) : LogEntry :=
  ⟨30, "Skipping " ++ name ++ " due to error.", false⟩

/-- MethodLogger.__call__ wrapper (lines 482-506): resolve the logger as the
construction-time logger or else the named attribute of the receiver; log
only when a logger was resolved; suppressed calls return the default whether
or not a logger exists, and otherwise the original exception propagates. -/
def MethodLogger.call {α β : Type} (ml : MethodLogger β) (getattr : String → Option Nat)
    (name elapsed : String) (f : α → Except String β) (x : α) :
    Except String β × List (Nat × LogEntry) × List α :=
  let logger : Option Nat :=
    match ml._logger with
    | some l => some l
    | none => getattr ml.loggerVarName
  match f x with
  | .ok result =>
      (.ok result,
       (match logger with
        | some l =>
            if ml.verbose then [(l, mlCallingEntry name), (l, mlFinishedEntry name elapsed)]
            else []
        | none => []),
       [x])
  | .error e =>
      match logger with
      | some l =>
          let pre := if ml.verbose then [(l, mlCallingEntry name)] else []
          if ml.skip then
            (.ok ml.default,
             pre ++ [(l, mlErrorEntry name e), (l, mlSkipEntry name)], [x])
          else
            (.error e, pre ++ [(l, mlErrorEntry name e)], [x])
      | none =>
          if ml.skip then (.ok ml.default, [], [x])
          else (.error e, [], [x])

/-! ### Spec-side definitions

The definitions in this section follow the wording of the specification (and,
for the claims under test, the wording of the claim itself); they exist to be
compared against the source translations above. -/

/-- Stack-trace suffix as the spec states it: appended if and only if the
severity is at least ERROR and the record carries a captured exception. -/
def specTraceSuffix (levelno : Nat) (excInfo : Option String) : String :=
  if 40 ≤ levelno ∧ excInfo.isSome then "\n" ++ excInfo.getD "" else ""

/-- Assembled line of spec steps 2-4 and 6, with the level token left as a
parameter, followed by the trace suffix of spec step 7. -/
def specAssembledLine (put_func_name : Bool) (max_width : Nat)
    (custom_str : String) (time_format : Option String)
    (r : LogRecord) (tok : String) : String :=
  "[" ++ formatTimeOf time_format r
    ++ moduleFunctionField put_func_name max_width r.module r.funcName
    ++ tagField custom_str ++ "|" ++ tok ++ "] " ++ r.message
    ++ specTraceSuffix r.levelno r.excInfo

/-- Console render as claim C7 states it: whole-line wrap with a bare level
token when colorWholeLine is on and the severity is not INFO; in every other
case a self-colored level token and no whole-line wrap. -/
def claimC7Render (cf : ConsoleFormatter) (r : LogRecord) : String :=
  let level := levelCode r.levelno
  let color := colorOf level
  if cf.colored_log ∧ level ≠ "INF" then
    color ++ specAssembledLine cf.put_func_name cf.max_width cf.custom_str cf.time_format r level ++ RESET
  else
    specAssembledLine cf.put_func_name cf.max_width cf.custom_str cf.time_format r (color ++ level ++ RESET)

/-- Amended console render: as claim C7, except that when colorLevelOnly is
off (which, for formatters built by the constructor, also forces
colorWholeLine off) both the level token and the line stay bare. -/
def amendedConsoleRender (cf : ConsoleFormatter) (r : LogRecord) : String :=
  let level := levelCode r.levelno
  let color := colorOf level
  if cf.colored_log ∧ level ≠ "INF" then
    color ++ specAssembledLine cf.put_func_name cf.max_width cf.custom_str cf.time_format r level ++ RESET
  else if cf.colored_level then
    specAssembledLine cf.put_func_name cf.max_width cf.custom_str cf.time_format r (color ++ level ++ RESET)
  else
    specAssembledLine cf.put_func_name cf.max_width cf.custom_str cf.time_format r level

/-- File render as the spec states it: the assembled line with a bare level
token and the iff-characterized trace suffix, no color anywhere. -/
def specFileRender (ff : FileFormatter) (r : LogRecord) : String :=
  specAssembledLine ff.put_func_name ff.max_width ff.custom_str ff.time_format r
    (levelCode r.levelno)

/-! ### Shared concrete inputs for witnesses and counterexamples -/

/-- Concrete INFO record. -/
def recInfo : LogRecord :=
  { levelno := 20, module := "mod", funcName := "func", message := "hello",
    asctime := "2026-01-01 00:00:00,000", asctimeFmt := fun _ => "2026-01-01",
    excInfo := none }

/-- Concrete WARNING record. -/
def recWarn : LogRecord :=
  { levelno := 30, module := "mod", funcName := "func", message := "careful",
    asctime := "2026-01-01 00:00:00,000", asctimeFmt := fun _ => "2026-01-01",
    excInfo := none }

/-- Concrete ERROR record carrying a captured trace. -/
def recErr : LogRecord :=
  { levelno := 40, module := "mod", funcName := "func", message := "boom",
    asctime := "2026-01-01 00:00:00,000", asctimeFmt := fun _ => "2026-01-01",
    excInfo := some "Traceback: ZeroDivisionError" }

/-- Concrete fallible callable: integer division that raises on a zero
divisor, the divide(x,y)=x/y example of the spec. -/
def divide (p : Int × Int) : Except String Int :=
  if p.2 = 0 then Except.error "division by zero" else Except.ok (p.1 / p.2)

/-- Concrete logger with default configuration and a file sink attached. -/
def lgFile : AdvancedLogger :=
  AdvancedLogger.make "app" (some "logs/app.log") true 20 "" none true false

/-- Concrete logger with default configuration and no file sink. -/
def lgPlain : AdvancedLogger :=
  AdvancedLogger.make "app" none true 20 "" none true false

/-! ### Helper lemmas -/

/-- Every handler of this program passes the StreamHandler isinstance test,
because FileHandler is a StreamHandler subclass. -/
@[simp] theorem isStreamHandlerInstance_true (h : Handler) :
    isStreamHandlerInstance h = true := by
  unfold isStreamHandlerInstance
  cases h.cls <;> rfl

/-- Updating the written lines of a handler does not change its class. -/
@[simp] theorem isFileHandlerInstance_written_update (h : Handler) (w : List String) :
    isFileHandlerInstance { h with written := w } = isFileHandlerInstance h := rfl

/-- The sequential coupling normalization of the ConsoleFormatter
constructor, as a single case table: a requested whole-line coloring wins
and switches level coloring on; otherwise the level flag is kept and the
whole-line flag is off. -/
theorem mkConsoleFormatter_coloring (pf : Bool) (w : Nat) (cs : String)
    (tf : Option String) (cl cw : Bool) :
    ((mkConsoleFormatter pf w cs tf cl cw).colored_level,
     (mkConsoleFormatter pf w cs tf cl cw).colored_log)
      = if cw then (true, true) else (cl, false) := by
  cases cl <;> cases cw <;> rfl

/-- The source's trace appending equals the iff-characterized suffix of the
spec: something is appended exactly when the severity is at least ERROR and
an exception is attached. -/
theorem codeTraceAppend_eq_specTraceSuffix (l : Nat) (exc : Option String) (s : String) :
    codeTraceAppend l exc s = s ++ specTraceSuffix l exc := by
  unfold codeTraceAppend specTraceSuffix
  rcases exc with _ | tb <;> by_cases h : 40 ≤ l <;> simp [h]

/-- Filtering for file handlers after filtering them out yields nothing. -/
theorem filter_not_file_then_file (hs : List Handler) :
    ((hs.filter fun h => ! isFileHandlerInstance h).filter
        fun h => isFileHandlerInstance h) = [] := by
  induction hs with
  | nil => rfl
  | cons h t ih => cases hf : isFileHandlerInstance h <;> simp [List.filter_cons, hf, ih]

/-- Filtering for file handlers commutes with updating written lines. -/
theorem filter_file_map_written (hs : List Handler) (g : Handler → List String) :
    ((hs.map fun h => { h with written := g h }).filter fun h => isFileHandlerInstance h)
      = (hs.filter fun h => isFileHandlerInstance h).map fun h => { h with written := g h } := by
  induction hs with
  | nil => rfl
  | cons h t ih => cases hf : isFileHandlerInstance h <;> simp [List.filter_cons, hf, ih]

/-- Dispatching a sequence of records appends, to every handler, the renders
of the records of severity at least DEBUG through that handler's own
formatter. -/
theorem logMany_handlers (rs : List LogRecord) (lg : AdvancedLogger) :
    (lg.logMany rs).handlers
      = lg.handlers.map fun h =>
          { h with written := h.written ++
              ((rs.filter fun r => decide (10 ≤ r.levelno)).map
                fun r => h.formatter.format r) } := by
  induction rs generalizing lg with
  | nil =>
      simp only [AdvancedLogger.logMany, List.foldl_nil, List.filter_nil, List.map_nil,
        List.append_nil]
      exact (List.map_id lg.handlers).symm
  | cons r rest ih =>
      have hstep : lg.logMany (r :: rest) = (lg.handle r).logMany rest := rfl
      rw [hstep, ih]
      by_cases hr : 10 ≤ r.levelno
      · simp only [AdvancedLogger.handle, if_pos hr, List.map_map]
        congr 1
        funext h
        simp [Function.comp, List.filter_cons, hr, List.append_assoc]
      · simp only [AdvancedLogger.handle, if_neg hr]
        simp [List.filter_cons, hr]

/-- The effective coloring pairs after a formatter rebuild: every handler
ends up carrying a console formatter built from the logger's current fields
(the FileFormatter branch being unreachable), so the effective pairs are one
normalized pair per handler. -/
theorem effectiveColorings_reset_formatters (lg : AdvancedLogger) :
    effectiveColorings lg.reset_formatters
      = List.replicate lg.handlers.length
          ((mkConsoleFormatter lg.put_func_name lg.max_width lg.custom_str lg.time_format
              lg.colored_level lg.colored_log).colored_level,
           (mkConsoleFormatter lg.put_func_name lg.max_width lg.custom_str lg.time_format
              lg.colored_level lg.colored_log).colored_log) := by
  obtain ⟨n, lf, ld, mw, cs, pf, tf, clv, clg, hs⟩ := lg
  unfold AdvancedLogger.reset_formatters effectiveColorings
  induction hs with
  | nil => rfl
  | cons h t ih =>
      simp only [List.map_cons, List.filterMap_cons, isStreamHandlerInstance_true,
        if_true, List.length_cons, List.replicate_succ] at ih ⊢
      rw [ih]

/-! ### Claim theorems -/

/-- C1 counterexample: the claim asserts that passing colorLevelOnly=false to
setColoring always forces colorWholeLine effectively false, for any
simultaneous combination of arguments.  Calling set_coloring with
colored_level=false and colored_log=true simultaneously refutes it: the
rebuilt console formatter has colored_log=true. -/
theorem set_coloring_claim_counterexample :
    ¬ (∀ p ∈ effectiveColorings (lgPlain.set_coloring false true), p.2 = false) := by
  decide

/-- C1 (amended): after any set_coloring call the effective coloring state of
every rebuilt console formatter is (true, true) when colorWholeLine=true was
passed — so enabling whole-line coloring forces level coloring on, taking
precedence over a simultaneous colorLevelOnly=false — and
(colorLevelOnly-as-passed, false) when colorWholeLine=false was passed, so
colorLevelOnly=false forces colorWholeLine=false whenever whole-line coloring
is not simultaneously requested.  In both cases the state invariant
(colorWholeLine implies colorLevelOnly) holds after every configuration
change, and the same normalization is applied at construction. -/
theorem set_coloring_effective_coupling :
    (∀ (lg : AdvancedLogger) (cl cw : Bool),
      effectiveColorings (lg.set_coloring cl cw)
        = List.replicate lg.handlers.length (if cw then (true, true) else (cl, false))) ∧
    (∀ (n : String) (lf : Option String) (pf : Bool) (w : Nat) (cs : String)
        (tf : Option String) (cl cw : Bool),
      effectiveColorings (AdvancedLogger.make n lf pf w cs tf cl cw)
        = [if cw then (true, true) else (cl, false)]) := by
  constructor
  · intro lg cl cw
    unfold AdvancedLogger.set_coloring
    rw [effectiveColorings_reset_formatters, mkConsoleFormatter_coloring]
  · intro n lf pf w cs tf cl cw
    cases lf <;> cases cl <;> cases cw <;> rfl

/-- C7 counterexample: the claim asserts that whenever whole-line coloring
does not apply, the level short code is wrapped with its color prefix and a
reset suffix.  A console formatter constructed with colored_level=false and
colored_log=false renders a WARNING record with a bare level token, refuting
the claim. -/
theorem console_render_claim_counterexample :
    ConsoleFormatter.format (mkConsoleFormatter true 20 "" none false false) recWarn
      ≠ claimC7Render (mkConsoleFormatter true 20 "" none false false) recWarn := by
  decide

/-- C7 (amended): the console render is fully characterized by: when
colorWholeLine is on and severity is not INFO, the level token stays bare and
the whole assembled line (trace included) is wrapped in the severity color
and a reset; otherwise, when colorLevelOnly is on, the level token alone is
wrapped and the line is not; and when colorLevelOnly is off both the token
and the line stay bare. -/
theorem console_render_characterization (cf : ConsoleFormatter) (r : LogRecord) :
    cf.format r = amendedConsoleRender cf r := by
  simp only [ConsoleFormatter.format, amendedConsoleRender, specAssembledLine,
    consoleLevelStr, consoleFinalWrap, codeTraceAppend_eq_specTraceSuffix]
  by_cases h1 : cf.colored_log ∧ levelCode r.levelno ≠ "INF" <;>
    by_cases h2 : cf.colored_level <;>
      simp [h1, h2, String.append_assoc]

/-- C8: the caller field is the string "|module.function" left-justified to
the configured width and truncated to exactly that width, so its length is
always exactly fieldWidth (hence empty at width 0); with the caller name
disabled the field is empty; and at width 10 with source module "mod" and
function "func_very_long" the field is exactly the first 10 characters of the
untruncated source field (pure truncation, no padding). -/
theorem caller_field_exact_width (w : Nat) (m fn : String) :
    (moduleFunctionField true w m fn).length = w ∧
    moduleFunctionField false w m fn = "" ∧
    moduleFunctionField true 0 m fn = "" ∧
    moduleFunctionField true 10 "mod" "func_very_long" = "|mod.func_" ∧
    (moduleFunctionField true 10 "mod" "func_very_long").data
      = ("|" ++ "mod" ++ "." ++ "func_very_long" : String).data.take 10 := by
  have key : ∀ (s : String) (k : Nat), (pySliceTo (pyLjust s k) k).length = k := by
    intro s k
    show ((s.data ++ List.replicate (k - s.data.length) ' ').take k).length = k
    rw [List.length_take, List.length_append, List.length_replicate]
    omega
  refine ⟨key ("|" ++ m ++ "." ++ fn) w, rfl, ?_, by decide, by decide⟩
  have h0 := key ("|" ++ m ++ "." ++ fn) 0
  have : ∀ (s : String), s.length = 0 → s = "" := by
    intro s hs
    cases s with
    | mk l => cases l with
      | nil => rfl
      | cons a t => simp [String.length] at hs
  exact this _ h0

/-- C9: in both variants the rendered record equals the assembled line with a
newline and the captured trace appended exactly when the severity is at least
ERROR and the record carries an exception (specTraceSuffix); severities below
ERROR and ERROR-or-above records without an attached exception get nothing
extra, and for the console variant the whole-line wrap is applied after the
suffix. -/
theorem trace_append_iff (cf : ConsoleFormatter) (ff : FileFormatter) (r : LogRecord) :
    cf.format r
      = consoleFinalWrap cf (levelCode r.levelno)
          (specAssembledLine cf.put_func_name cf.max_width cf.custom_str cf.time_format r
            (consoleLevelStr cf (levelCode r.levelno))) ∧
    ff.format r = specFileRender ff r := by
  constructor <;>
    simp [ConsoleFormatter.format, FileFormatter.format, specFileRender, specAssembledLine,
      codeTraceAppend_eq_specTraceSuffix, String.append_assoc]

/-- C2 (code bug): after a configuration-field change on a logger with a file
sink, the file handler's formatter has been rebuilt as the console variant -
isinstance(h, StreamHandler) matches the FileHandler first because FileHandler
subclasses StreamHandler, leaving the FileFormatter branch dead - and that
formatter's output contains the ANSI escape character, while the intended
file-variant render of the same record does not. -/
theorem reset_formatters_file_sink_gets_console_variant :
    fileHandlerFormatters (lgFile.set_custom_str "TAG")
      = [Formatter.console (mkConsoleFormatter true 20 "TAG" none true false)] ∧
    '\x1b' ∈ (Formatter.format
        (Formatter.console (mkConsoleFormatter true 20 "TAG" none true false)) recInfo).data ∧
    ¬ '\x1b' ∈ (FileFormatter.format (mkFileFormatter true 20 "TAG" none) recInfo).data := by
  decide

/-- Logger used for the C6 evaluation: defaults, file sink, one mutation,
then reset_defaults. -/
def lgC6mutated : AdvancedLogger := (lgFile.set_max_width 50).reset_defaults

/-- C6 (code bug): reset_defaults does restore every FormatConfig field to
its default and keeps the file sink attached, but the subsequent file-sink
render of a record differs from that of a freshly constructed logger with the
same arguments, because the rebuild installed a console formatter (which
colors the level token) on the file handler. -/
theorem reset_defaults_restores_config_but_not_file_renders :
    (lgC6mutated.put_func_name = true ∧ lgC6mutated.max_width = 20 ∧
     lgC6mutated.custom_str = "" ∧ lgC6mutated.time_format = none ∧
     lgC6mutated.colored_level = true ∧ lgC6mutated.colored_log = false) ∧
    (fileSinkStates lgC6mutated).length = 1 ∧
    fileRenders lgC6mutated recInfo ≠ fileRenders lgFile recInfo := by
  decide

/-- C3: with suppression on (skip=true), a normal return is passed through
unchanged with no entry at WARNING level or above logged, and a raising call
returns the configured default while logging exactly one ERROR entry (with
the captured trace) followed by exactly one WARNING entry; in both cases the
wrapped callable is invoked exactly once.  Both the module-level wrapper and
the AdvancedLogger method wrapper are covered. -/
theorem log_funcall_suppress_path {α β : Type} (f : α → Except String β) (x : α)
    (d : β) (verbose : Bool) (name elapsed : String) :
    match f x with
    | .ok v =>
        log_funcall_wrap d true verbose name elapsed f x
          = (.ok v,
             if verbose then [lfCallingEntry name, lfFinishedEntry name elapsed] else [],
             [x]) ∧
        ((log_funcall_wrap d true verbose name elapsed f x).2.1.filter
            fun le => decide (30 ≤ le.level)) = [] ∧
        AdvancedLogger.log_funcall_wrap d true verbose name elapsed f x
          = (.ok v,
             if verbose then
               [lfCallingEntry (pyRepr name), lfFinishedEntry (pyRepr name) elapsed]
             else [],
             [x])
    | .error e =>
        log_funcall_wrap d true verbose name elapsed f x
          = (.ok d,
             (if verbose then [lfCallingEntry name] else [])
               ++ [lfErrorEntry name e, lfSkipEntry name],
             [x]) ∧
        ((log_funcall_wrap d true verbose name elapsed f x).2.1.filter
            fun le => decide (30 ≤ le.level)) = [lfErrorEntry name e, lfSkipEntry name] ∧
        AdvancedLogger.log_funcall_wrap d true verbose name elapsed f x
          = (.ok d,
             (if verbose then [lfCallingEntry (pyRepr name)] else [])
               ++ [lfErrorEntry (pyRepr name) e, lfSkipEntry (pyRepr name)],
             [x]) := by
  cases h : f x <;> cases verbose <;>
    simp [log_funcall_wrap, AdvancedLogger.log_funcall_wrap, h, List.filter_cons,
      lfCallingEntry, lfFinishedEntry, lfErrorEntry, lfSkipEntry]

/-- C4: with suppression off (skip=false), a raising call logs exactly one
ERROR entry carrying the captured trace and then propagates the original
error value verbatim (same carried value, not replaced), a normal return is
passed through unchanged, and in both cases the wrapped callable is invoked
exactly once per wrapper invocation.  Both the module-level wrapper and the
AdvancedLogger method wrapper are covered. -/
theorem log_funcall_reraise_path {α β : Type} (f : α → Except String β) (x : α)
    (d : β) (verbose : Bool) (name elapsed : String) :
    match f x with
    | .ok v =>
        log_funcall_wrap d false verbose name elapsed f x
          = (.ok v,
             if verbose then [lfCallingEntry name, lfFinishedEntry name elapsed] else [],
             [x]) ∧
        AdvancedLogger.log_funcall_wrap d false verbose name elapsed f x
          = (.ok v,
             if verbose then
               [lfCallingEntry (pyRepr name), lfFinishedEntry (pyRepr name) elapsed]
             else [],
             [x])
    | .error e =>
        log_funcall_wrap d false verbose name elapsed f x
          = (.error e,
             (if verbose then [lfCallingEntry name] else []) ++ [lfErrorEntry name e],
             [x]) ∧
        (lfErrorEntry name e).level = 40 ∧
        (lfErrorEntry name e).exc_info = true ∧
        AdvancedLogger.log_funcall_wrap d false verbose name elapsed f x
          = (.error e,
             (if verbose then [lfCallingEntry (pyRepr name)] else [])
               ++ [lfErrorEntry (pyRepr name) e],
             [x]) := by
  cases h : f x <;> cases verbose <;>
    simp [log_funcall_wrap, AdvancedLogger.log_funcall_wrap, h,
      lfCallingEntry, lfFinishedEntry, lfErrorEntry, lfSkipEntry]

/-- C5: set_file leaves exactly one file sink attached - at the new path, in
append mode, with nothing written yet, the old file sink having been removed
before the new one was added - updates the stored path, and every record
logged afterwards is written to that sink rendered through the file formatter
built from the logger's current configuration, so the new sink's contents
reflect exactly the logging calls made after the most recent set_file. -/
theorem set_file_single_sink :
    (∀ (lg : AdvancedLogger) (p : String),
      fileSinkStates (lg.set_file p) = [(some p, some "a", [])] ∧
      (lg.set_file p).log_file = some p ∧
      fileHandlerFormatters (lg.set_file p)
        = [Formatter.file (mkFileFormatter lg.put_func_name lg.max_width lg.custom_str
            lg.time_format)]) ∧
    (∀ (lg : AdvancedLogger) (p : String) (rs : List LogRecord),
      fileSinkStates ((lg.set_file p).logMany rs)
        = [(some p, some "a",
            (rs.filter fun r => decide (10 ≤ r.levelno)).map fun r =>
              FileFormatter.format
                (mkFileFormatter lg.put_func_name lg.max_width lg.custom_str lg.time_format)
                r)]) := by
  constructor
  · intro lg p
    unfold AdvancedLogger.set_file fileSinkStates fileHandlerFormatters
    simp [List.filter_append, filter_not_file_then_file, List.filter_cons,
      isFileHandlerInstance]
  · intro lg p rs
    unfold fileSinkStates
    rw [logMany_handlers, filter_file_map_written]
    unfold AdvancedLogger.set_file
    simp [List.filter_append, filter_not_file_then_file, List.filter_cons,
      isFileHandlerInstance, Formatter.format]

/-- C10: the MethodLogger wrapper resolves its logger as the one given at
construction, or else the receiver attribute named loggerVarName; every
emitted entry goes to that resolved logger; when neither is available no
entry is emitted but the suppress/re-raise decision still applies - with
skip=true an exception yields the configured default, with skip=false the
original error propagates verbatim - and the wrapped callable is invoked
exactly once per wrapper invocation. -/
theorem method_logger_resolution_and_silent_path {α β : Type} (ml : MethodLogger β)
    (getattr : String → Option Nat) (name elapsed : String)
    (f : α → Except String β) (x : α) :
    (MethodLogger.call ml getattr name elapsed f x).2.2 = [x] ∧
    (match (match ml._logger with | some l => some l | none => getattr ml.loggerVarName) with
     | some l =>
         ((MethodLogger.call ml getattr name elapsed f x).2.1.all
             fun p => p.1 == l) = true
     | none =>
         (MethodLogger.call ml getattr name elapsed f x).2.1 = [] ∧
         (match f x with
          | .ok v => (MethodLogger.call ml getattr name elapsed f x).1 = .ok v
          | .error e =>
              (MethodLogger.call ml getattr name elapsed f x).1
                = (if ml.skip then .ok ml.default else .error e))) := by
  cases hL : ml._logger with
  | some l =>
      cases h : f x <;> cases hv : ml.verbose <;> cases hs : ml.skip <;>
        simp [MethodLogger.call, hL, h, hv, hs]
  | none =>
      cases hG : getattr ml.loggerVarName with
      | some l =>
          cases h : f x <;> cases hv : ml.verbose <;> cases hs : ml.skip <;>
            simp [MethodLogger.call, hL, hG, h, hv, hs]
      | none =>
          cases h : f x <;> cases hs : ml.skip <;>
            simp [MethodLogger.call, hL, hG, h, hs]
